import Mathlib

/-!
Verification of the `civium` zk-prover crate (`crates/zk-prover`) against its
natural-language specification. The Rust sources are shallowly embedded:
pure functions become Lean functions over `Nat` (machine `u64`/`u8` values
never overflow in the modelled code paths), field elements of the BN254
scalar field become `ZMod bn254ScalarModulus`, fallible Rust functions
returning `Result` become `Except`, and the external collaborators the spec
places out of scope (the arkworks SNARK backend, the `hex` crate, the
filesystem) are modelled from the spec's interface contract, each marked
with a doc comment starting `Modelled from the spec:`.
-/

/-- BN254 / BLS-alt scalar field modulus `r` (the prime field `Fr` of
`ark_bn254`). -/
def bn254ScalarModulus : Nat :=
  21888242871839275222246405745257275088548364400416034343698204186575808495617

/-- BN254 base field modulus `q` (the prime field `Fq` of `ark_bn254`),
coordinates of curve points live in this field. -/
def bn254BaseModulus : Nat :=
  21888242871839275222246405745257275088696311157297823662689037894645226208583

/-- The BN254 scalar field `ark_bn254::Fr`. -/
abbrev Fr := ZMod bn254ScalarModulus

instance : NeZero bn254ScalarModulus := ⟨by decide⟩

/-- `types.rs`: `pub const MAX_SCORE: u64 = 10000`. -/
def MAX_SCORE : Nat := 10000

namespace tiers

/-- `types.rs` tier boundary constants. -/
def TIER_1_MIN : Nat := 9500

def TIER_2_MIN : Nat := 8500

def TIER_3_MIN : Nat := 7000

def TIER_4_MIN : Nat := 5000

def TIER_5_MIN : Nat := 0

end tiers

/-- `error.rs`: the `ProverError` enum.  Rust's `u64`/`u8` payloads are `Nat`;
the `Serialization` and `IoError` variants carry the underlying error rendered
to a string (`serde_json::Error` / `std::io::Error`). -/
inductive ProverError where
  | CircuitNotFound (path : String)
  | InvalidInput (field value expected : String)
  | ProofGenerationFailed (reason : String)
  | VerificationFailed (reason : String)
  | InvalidProofFormat (reason : String)
  | Serialization (msg : String)
  | IoError (msg : String)
  | WitnessError (reason : String)
  | SetupError (reason : String)
  | ScoreOutOfRange (score : Nat)
  | ThresholdNotMet (score threshold : Nat)
  | InvalidTier (tier : Nat)
  | ArkError (msg : String)
deriving DecidableEq

instance {ε α : Type _} [DecidableEq ε] [DecidableEq α] :
    DecidableEq (Except ε α) := fun x y =>
  match x, y with
  | .ok a, .ok b =>
    if h : a = b then .isTrue (by rw [h])
    else .isFalse (by intro hh; cases hh; exact h rfl)
  | .ok _, .error _ => .isFalse (by intro h; cases h)
  | .error _, .ok _ => .isFalse (by intro h; cases h)
  | .error e, .error f =>
    if h : e = f then .isTrue (by rw [h])
    else .isFalse (by intro hh; cases hh; exact h rfl)

/-! ## Decimal-string parsing (`num_bigint::BigUint::from_str_radix`, radix 10)

`types.rs` calls `BigUint::parse_bytes(s.as_bytes(), 10)` and `poseidon.rs`
calls `BigUint::from_str_radix(s, 10)`.  `parse_bytes` is
`from_utf8(buf).ok().and_then(|s| from_str_radix(s, radix).ok())`; the input
always comes from a Rust `String`, so the UTF-8 step never fails.
`from_str_radix` strips one leading `+` (unless followed by another `+`),
rejects the empty string and a leading `_`, skips interior `_` characters, and
maps every other character to a digit value (`0-9`, `a-z` ↦ 10.., `A-Z` ↦ 10..,
anything else invalid), rejecting digit values `≥ radix`. -/

/-- `num_bigint::ParseBigIntError` (only the two kinds `from_str_radix`
produces). -/
inductive ParseBigIntError where
  | empty
  | invalid
deriving DecidableEq

/-- Display strings of `num_bigint::ParseBigIntError`. -/
def parseBigIntErrorMessage : ParseBigIntError → String
  | .empty => "cannot parse integer from empty string"
  | .invalid => "invalid digit found in string"

/-- Per-character digit value as in `BigUint::from_str_radix` (the `_` skip is
handled by the caller).  `255` is `u8::MAX`, the invalid marker. -/
def digitValue (b : Char) : Nat :=
  if '0' ≤ b ∧ b ≤ '9' then b.toNat - '0'.toNat
  else if 'a' ≤ b ∧ b ≤ 'z' then b.toNat - 'a'.toNat + 10
  else if 'A' ≤ b ∧ b ≤ 'Z' then b.toNat - 'A'.toNat + 10
  else 255

/-- The digit-accumulation loop of `from_str_radix` at radix 10: skips `_`,
rejects digit values `≥ 10`, accumulates base-10. -/
def fromRadixDigitsAcc : List Char → Nat → Except ParseBigIntError Nat
  | [], acc => .ok acc
  | ch :: rest, acc =>
    if ch = '_' then fromRadixDigitsAcc rest acc
    else
      let d := digitValue ch
      if d < 10 then fromRadixDigitsAcc rest (acc * 10 + d) else .error .invalid

/-- `BigUint::from_str_radix(s, 10)`. -/
def fromStrRadix10 (s : List Char) : Except ParseBigIntError Nat :=
  let s1 :=
    match s with
    | '+' :: tail => if tail.head? = some '+' then s else tail
    | _ => s
  if s1.isEmpty then .error .empty
  else if s1.head? = some '_' then .error .invalid
  else fromRadixDigitsAcc s1 0

/-- `BigUint::parse_bytes(s.as_bytes(), 10)` for a Rust `String` input. -/
def parseBytes10 (s : String) : Option Nat :=
  (fromStrRadix10 s.data).toOption

/-! ## `types.rs`: statement inputs -/

/-- `types.rs`: `ThresholdInput`. -/
structure ThresholdInput where
  threshold : Nat
  entity_hash : String
  score : Nat
  salt : String
deriving DecidableEq

namespace ThresholdInput

/-- `ThresholdInput::validate`. -/
def validate (self : ThresholdInput) : Except ProverError Unit :=
  if self.score > MAX_SCORE then
    .error (.ScoreOutOfRange self.score)
  else if self.threshold > MAX_SCORE then
    .error (.InvalidInput "threshold" (Nat.repr self.threshold)
      ("0-" ++ Nat.repr MAX_SCORE))
  else if self.score < self.threshold then
    .error (.ThresholdNotMet self.score self.threshold)
  else
    .ok ()

/-- `ThresholdInput::to_circuit_input`; `unwrap_or_else(|| BigUint::from(0u64))`
is `Option.getD 0`. -/
def to_circuit_input (self : ThresholdInput) : List (String × List Nat) :=
  [ ("threshold", [self.threshold]),
    ("entityHash", [(parseBytes10 self.entity_hash).getD 0]),
    ("score", [self.score]),
    ("salt", [(parseBytes10 self.salt).getD 0]) ]

end ThresholdInput

/-- `types.rs`: `RangeInput`. -/
structure RangeInput where
  min_score : Nat
  max_score : Nat
  entity_hash : String
  score : Nat
  salt : String
deriving DecidableEq

namespace RangeInput

/-- `RangeInput::to_circuit_input`. -/
def to_circuit_input (self : RangeInput) : List (String × List Nat) :=
  [ ("minScore", [self.min_score]),
    ("maxScore", [self.max_score]),
    ("entityHash", [(parseBytes10 self.entity_hash).getD 0]),
    ("score", [self.score]),
    ("salt", [(parseBytes10 self.salt).getD 0]) ]

end RangeInput

/-- `types.rs`: `TierInput` (`target_tier: u8`). -/
structure TierInput where
  target_tier : Nat
  entity_hash : String
  score : Nat
  salt : String
deriving DecidableEq

namespace TierInput

/-- `TierInput::tier_bounds`. -/
def tier_bounds : Nat → Nat × Nat
  | 1 => (tiers.TIER_1_MIN, MAX_SCORE)
  | 2 => (tiers.TIER_2_MIN, tiers.TIER_1_MIN - 1)
  | 3 => (tiers.TIER_3_MIN, tiers.TIER_2_MIN - 1)
  | 4 => (tiers.TIER_4_MIN, tiers.TIER_3_MIN - 1)
  | 5 => (tiers.TIER_5_MIN, tiers.TIER_4_MIN - 1)
  | _ => (0, 0)

/-- `TierInput::validate`. -/
def validate (self : TierInput) : Except ProverError Unit :=
  if self.target_tier < 1 ∨ self.target_tier > 5 then
    .error (.InvalidTier self.target_tier)
  else if self.score > MAX_SCORE then
    .error (.ScoreOutOfRange self.score)
  else
    let b := tier_bounds self.target_tier
    if self.score < b.1 ∨ self.score > b.2 then
      .error (.InvalidInput "score" (Nat.repr self.score)
        ("tier " ++ Nat.repr self.target_tier ++ " range [" ++ Nat.repr b.1 ++
          ", " ++ Nat.repr b.2 ++ "]"))
    else
      .ok ()

/-- `TierInput::to_circuit_input`. -/
def to_circuit_input (self : TierInput) : List (String × List Nat) :=
  [ ("targetTier", [self.target_tier]),
    ("entityHash", [(parseBytes10 self.entity_hash).getD 0]),
    ("score", [self.score]),
    ("salt", [(parseBytes10 self.salt).getD 0]) ]

end TierInput

/-! ## `circuits.rs`: native circuits over an R1CS constraint system

`ark_relations` constraint-system model: `ConstraintSystem::<Fr>::new_ref()`
starts with the constant instance variable `one = 1`; `FpVar::new_input`
appends a public-input assignment, `FpVar::new_witness` appends a witness
assignment, `FpVar::new_constant` allocates nothing; field additions and
subtractions of `FpVar`s build linear combinations and emit **no**
constraints; `is_satisfied` checks every emitted `a·b = c` row against the
embedded assignment (each row recorded here with its linear combinations
already evaluated, since the circuit embeds a fixed witness). -/
structure R1CSState where
  instAssign : List Fr
  witAssign : List Fr
  constraints : List (Fr × Fr × Fr)
deriving DecidableEq

namespace R1CSState

/-- `ConstraintSystem::<Fr>::new_ref()`. -/
def init : R1CSState := ⟨[1], [], []⟩

/-- `FpVar::new_input` (allocation only, no constraint). -/
def newInput (cs : R1CSState) (v : Fr) : R1CSState × Fr :=
  ({ cs with instAssign := cs.instAssign ++ [v] }, v)

/-- `FpVar::new_witness` (allocation only, no constraint). -/
def newWitness (cs : R1CSState) (v : Fr) : R1CSState × Fr :=
  ({ cs with witAssign := cs.witAssign ++ [v] }, v)

/-- `FpVar::new_constant` (no allocation, no constraint). -/
def newConstant (cs : R1CSState) (v : Fr) : R1CSState × Fr := (cs, v)

/-- `ConstraintSystemRef::is_satisfied`. -/
def isSatisfied (cs : R1CSState) : Bool :=
  cs.constraints.all fun t => t.1 * t.2.1 == t.2.2

end R1CSState

/-- `circuits.rs`: `ThresholdCircuit`. -/
structure ThresholdCircuit where
  threshold : Fr
  entity_hash : Fr
  score : Fr
  salt : Fr

namespace ThresholdCircuit

/-- `ThresholdCircuit::new`. -/
def new (threshold : Nat) (entity_hash : Fr) (score : Nat) (salt : Fr) :
    ThresholdCircuit :=
  ⟨(threshold : Fr), entity_hash, (score : Fr), salt⟩

/-- `ThresholdCircuit::generate_constraints` (the `Result` is always `Ok`:
every allocation closure returns `Ok`).  The body allocates the two public
inputs and two witnesses, forms the linear combinations `diff`, `upper_diff`
and `_commitment`, and returns — the range-proof and commitment constraints
are commented out in the source. -/
def generate_constraints (self : ThresholdCircuit) (cs : R1CSState) :
    R1CSState :=
  let (cs, threshold_var) := cs.newInput self.threshold
  let (cs, entity_hash_var) := cs.newInput self.entity_hash
  let (cs, score_var) := cs.newWitness self.score
  let (cs, salt_var) := cs.newWitness self.salt
  let _diff := score_var - threshold_var
  let (cs, max_score_var) := cs.newConstant (MAX_SCORE : Fr)
  let _upper_diff := max_score_var - score_var
  let _commitment := score_var + salt_var + entity_hash_var
  cs

end ThresholdCircuit

/-! ## `proof.rs` / `prover.rs` shared types -/

/-- `ark_groth16::ProvingKey<Bn254>`: opaque to the modelled logic (the source
never constructs one outside the external backend). -/
abbrev ProvingKey := Unit

/-- `ark_groth16::VerifyingKey<Bn254>`: opaque to the modelled logic. -/
abbrev VerifyingKey := Unit

/-- `prover.rs`: `enum Circuit`. -/
inductive Circuit where
  | Threshold
  | Range
  | Tier
deriving DecidableEq

/-- `Circuit::file_name`. -/
def Circuit.file_name : Circuit → String
  | .Threshold => "compliance_threshold"
  | .Range => "range_proof"
  | .Tier => "tier_membership"

/-! ## `proof.rs`: the compressed proof codec

Modelled from the spec: the proof is an opaque triple of group elements
(`a : G1`, `b : G2`, `c : G1`) whose binary form is the *canonical compressed
serialization* of the arkworks backend (out of scope per spec §1): each group
element is stored as its x-coordinate(s) in the base field `Fq` (`< q`,
canonical) in 32 little-endian bytes per coordinate, with a 2-bit flag packed
in the free high bits (`0`/`1`: sign of y, `2`: point at infinity, which
forces zero coordinates); deserialization rejects non-canonical coordinates,
bad flags and truncated input.  A group element is uniquely determined by
this compressed data, so the Lean `Proof` carries exactly it. -/

/-- A compressed `G1Affine`: x-coordinate and flag bits. -/
structure G1Comp where
  x : Nat
  flags : Nat
deriving DecidableEq

/-- A compressed `G2Affine`: the two `Fq2` components of x, and flag bits. -/
structure G2Comp where
  c0 : Nat
  c1 : Nat
  flags : Nat
deriving DecidableEq

/-- Canonical-form invariant of a compressed G1 element. -/
def G1Comp.valid (p : G1Comp) : Prop :=
  p.flags < 3 ∧ p.x < bn254BaseModulus ∧ (p.flags = 2 → p.x = 0)

/-- Canonical-form invariant of a compressed G2 element. -/
def G2Comp.valid (p : G2Comp) : Prop :=
  p.flags < 3 ∧ p.c0 < bn254BaseModulus ∧ p.c1 < bn254BaseModulus ∧
    (p.flags = 2 → p.c0 = 0 ∧ p.c1 = 0)

/-- `proof.rs`: `Proof` (the `ark_groth16::Proof<Bn254>` content). -/
structure Proof where
  a : G1Comp
  b : G2Comp
  c : G1Comp
deriving DecidableEq

/-- `Proof::valid`: all three group elements canonical. -/
def Proof.valid (p : Proof) : Prop := p.a.valid ∧ p.b.valid ∧ p.c.valid

/-- `ark_serialize::SerializationError`. -/
inductive SerializationError where
  | notEnoughSpace
  | invalidData
  | unexpectedFlags
  | ioError
deriving DecidableEq

/-- Modelled from the spec: display strings of the external
`ark_serialize::SerializationError`. -/
def serializationErrorMessage : SerializationError → String
  | .notEnoughSpace => "the writer ran out of space"
  | .invalidData => "the input buffer contained invalid data"
  | .unexpectedFlags => "the flags in the input buffer are invalid"
  | .ioError => "an io error occurred"

/-- `error.rs`: `impl From<ark_serialize::SerializationError> for ProverError`
(`Self::ArkError(e.to_string())`). -/
def ProverError.fromSerializationError (e : SerializationError) : ProverError :=
  .ArkError (serializationErrorMessage e)

/-- Little-endian byte rendering of a natural number, exactly `k` bytes. -/
def natToLE : Nat → Nat → List Nat
  | 0, _ => []
  | k + 1, v => v % 256 :: natToLE k (v / 256)

/-- Little-endian byte interpretation. -/
def leToNat : List Nat → Nat
  | [] => 0
  | b :: bs => b + 256 * leToNat bs

/-- Modelled from the spec: compressed serialization of a G1 element
(32 bytes, flags in the two free top bits above the 254-bit coordinate). -/
def serializeG1 (p : G1Comp) : List Nat :=
  natToLE 32 (p.x + 2 ^ 254 * p.flags)

/-- Modelled from the spec: compressed deserialization of a G1 element. -/
def deserializeG1 (bs : List Nat) : Except SerializationError G1Comp :=
  let v := leToNat bs
  let f := v / 2 ^ 254
  let x := v % 2 ^ 254
  if 2 < f then .error .unexpectedFlags
  else if f = 2 ∧ x ≠ 0 then .error .invalidData
  else if bn254BaseModulus ≤ x then .error .invalidData
  else .ok ⟨x, f⟩

/-- Modelled from the spec: compressed serialization of a G2 element
(64 bytes: `x.c0` then `x.c1` with the flags packed above `x.c1`). -/
def serializeG2 (p : G2Comp) : List Nat :=
  natToLE 32 p.c0 ++ natToLE 32 (p.c1 + 2 ^ 254 * p.flags)

/-- Modelled from the spec: compressed deserialization of a G2 element. -/
def deserializeG2 (bs : List Nat) : Except SerializationError G2Comp :=
  let c0 := leToNat (bs.take 32)
  let v := leToNat (bs.drop 32)
  let f := v / 2 ^ 254
  let c1 := v % 2 ^ 254
  if 2 < f then .error .unexpectedFlags
  else if f = 2 ∧ ¬(c0 = 0 ∧ c1 = 0) then .error .invalidData
  else if bn254BaseModulus ≤ c0 ∨ bn254BaseModulus ≤ c1 then .error .invalidData
  else .ok ⟨c0, c1, f⟩

/-- Modelled from the spec: `CanonicalSerialize::serialize_compressed` of a
Groth16 BN254 proof — `a`, `b`, `c` in order, 128 bytes (writing to an
in-memory `Vec` cannot fail). -/
def serializeProof (p : Proof) : List Nat :=
  serializeG1 p.a ++ serializeG2 p.b ++ serializeG1 p.c

/-- Modelled from the spec: `CanonicalDeserialize::deserialize_compressed` of
a Groth16 BN254 proof; truncated input fails with an io error (unexpected
end of file), trailing bytes beyond the 128 read are left unconsumed. -/
def deserializeProof (bs : List Nat) : Except SerializationError Proof :=
  if bs.length < 128 then .error .ioError
  else
    match deserializeG1 (bs.take 32) with
    | .error e => .error e
    | .ok a =>
      match deserializeG2 ((bs.drop 32).take 64) with
      | .error e => .error e
      | .ok b =>
        match deserializeG1 ((bs.drop 96).take 32) with
        | .error e => .error e
        | .ok c => .ok ⟨a, b, c⟩

namespace Proof

/-- `Proof::to_bytes` (`serialize_compressed` into a fresh `Vec` always
succeeds, so the `Result` wrapper is dropped). -/
def to_bytes (self : Proof) : List Nat := serializeProof self

/-- `Proof::from_bytes`: `deserialize_compressed(bytes)?` — the `?` routes a
`SerializationError` through the `From` impl in `error.rs`. -/
def from_bytes (bytes : List Nat) : Except ProverError Proof :=
  match deserializeProof bytes with
  | .ok inner => .ok inner
  | .error e => .error (ProverError.fromSerializationError e)

end Proof

/-- `proof.rs`: `ProofWithPublicInputs`. -/
structure ProofWithPublicInputs where
  proof : Proof
  public_inputs : List Fr
  circuit : String
deriving DecidableEq

/-! ## `prover.rs`: the prover and its key lifecycle -/

/-- `prover.rs`: `ComplianceProver` — `build_dir` plus the three proving-key
cache fields (`/// Cached proving keys`). -/
structure ComplianceProver where
  build_dir : String
  threshold_pk : Option ProvingKey
  range_pk : Option ProvingKey
  tier_pk : Option ProvingKey
deriving DecidableEq

/-- Outcomes of the external steps `build_and_prove` performs, passed in
explicitly (filesystem probe, `CircomConfig::new`, `CircomBuilder::build`,
`Groth16::circuit_specific_setup`, `Groth16::prove`,
`CircomCircuit::get_public_inputs` — all external collaborators per spec
§1). -/
structure ProveEnv where
  wasmExists : Bool
  configResult : Except String Unit
  buildResult : Except String Unit
  setupResult : Except String Unit
  proveResult : Except String Proof
  publicInputs : Option (List Fr)

namespace ComplianceProver

/-- `ComplianceProver::new` (the `Path::exists` probe passed in). -/
def new (dirExists : Bool) (build_dir : String) :
    Except ProverError ComplianceProver :=
  if !dirExists then .error (.CircuitNotFound build_dir)
  else .ok ⟨build_dir, none, none, none⟩

/-- `ComplianceProver::build_and_prove`.  Returns the call's result, the
prover state after the call (the method takes `&self`: nothing is ever
written to the key cache), and how many times
`Groth16::circuit_specific_setup` ran during the call.  The signal-map
`inputs` are handed to the external witness builder and do not influence the
key lifecycle. -/
def build_and_prove (env : ProveEnv) (self : ComplianceProver)
    (circuit : Circuit) (_inputs : List (String × List Nat)) :
    Except ProverError ProofWithPublicInputs × ComplianceProver × Nat :=
  let name := circuit.file_name
  let wasm_path :=
    self.build_dir ++ "/" ++ name ++ "/" ++ name ++ "_js/" ++ name ++ ".wasm"
  if !env.wasmExists then (.error (.CircuitNotFound wasm_path), self, 0)
  else
    match env.configResult with
    | .error e => (.error (.SetupError e), self, 0)
    | .ok _ =>
      match env.buildResult with
      | .error e => (.error (.WitnessError e), self, 0)
      | .ok _ =>
        match env.setupResult with
        | .error e => (.error (.SetupError e), self, 1)
        | .ok _ =>
          match env.proveResult with
          | .error e => (.error (.ProofGenerationFailed e), self, 1)
          | .ok prf =>
            match env.publicInputs with
            | none =>
              (.error (.WitnessError "Failed to extract public inputs"),
                self, 1)
            | some pis => (.ok ⟨prf, pis, name⟩, self, 1)

/-- `ComplianceProver::prove_threshold`. -/
def prove_threshold (env : ProveEnv) (self : ComplianceProver)
    (input : ThresholdInput) :
    Except ProverError ProofWithPublicInputs × ComplianceProver × Nat :=
  match input.validate with
  | .error e => (.error e, self, 0)
  | .ok _ => self.build_and_prove env Circuit.Threshold input.to_circuit_input

end ComplianceProver

/-! ## `poseidon.rs`: decimal-string/field conversion -/

/-- `poseidon.rs`: `string_to_fr` — `BigUint::from_str_radix(s, 10)` then
`Fr::from_be_bytes_mod_order(&biguint.to_bytes_be())`, i.e. the parsed
integer reduced modulo the scalar-field prime (`Nat.cast` into `ZMod`). -/
def string_to_fr (s : String) : Except ProverError Fr :=
  match fromStrRadix10 s.data with
  | .error e =>
    .error (.ArkError ("Invalid number: " ++ parseBigIntErrorMessage e))
  | .ok n => .ok (n : Fr)

/-! ## `proof.rs`: hex codec (`hex` crate) -/

/-- Modelled from the spec: `hex::encode` digit table (lowercase). -/
def hexDigit (n : Nat) : Char :=
  Char.ofNat (if n < 10 then 48 + n else 87 + n)

/-- Modelled from the spec: `hex::decode` digit value (accepts both cases). -/
def hexVal (c : Char) : Option Nat :=
  if '0' ≤ c ∧ c ≤ '9' then some (c.toNat - 48)
  else if 'a' ≤ c ∧ c ≤ 'f' then some (c.toNat - 87)
  else if 'A' ≤ c ∧ c ≤ 'F' then some (c.toNat - 55)
  else none

/-- Is the character one of the sixteen lowercase hex digits? -/
def isLowerHexChar (c : Char) : Bool :=
  ('0' ≤ c ∧ c ≤ '9') ∨ ('a' ≤ c ∧ c ≤ 'f')

/-- Modelled from the spec: `hex::encode` — two lowercase digits per byte. -/
def hexEncode : List Nat → List Char
  | [] => []
  | b :: bs => hexDigit (b / 16) :: hexDigit (b % 16) :: hexEncode bs

/-- Modelled from the spec: `hex::decode` — fails on odd length or any
non-hex character. -/
def hexDecode : List Char → Option (List Nat)
  | [] => some []
  | [_] => none
  | c1 :: c2 :: rest =>
    match hexVal c1, hexVal c2, hexDecode rest with
    | some h, some l, some bs => some ((h * 16 + l) :: bs)
    | _, _, _ => none

namespace Proof

/-- `Proof::to_hex` (`hex::encode(self.to_bytes()?)`; always `Ok`). -/
def to_hex (self : Proof) : List Char := hexEncode self.to_bytes

/-- `Proof::from_hex`: `hex::decode` failure maps to `InvalidProofFormat`,
then `Self::from_bytes`. -/
def from_hex (hex_str : List Char) : Except ProverError Proof :=
  match hexDecode hex_str with
  | none => .error (.InvalidProofFormat "invalid hex string")
  | some bytes => from_bytes bytes

end Proof

/-! ## `proof.rs`: JSON and Solidity renderings of the proof points

These operate on the *uncompressed* affine points (`G1Affine`, `G2Affine`
with explicit x/y coordinates); each decimal string is the arkworks `Display`
of the canonical field-element value. -/

/-- `ark_bn254::G1Affine` as its two base-field coordinates. -/
structure G1Affine where
  x : Nat
  y : Nat
deriving DecidableEq

/-- `ark_bn254::G2Affine`: x and y each have two `Fq2` components `c0`, `c1`. -/
structure G2Affine where
  xc0 : Nat
  xc1 : Nat
  yc0 : Nat
  yc1 : Nat
deriving DecidableEq

/-- A proof as its three uncompressed points, the view `to_json` and
`to_solidity_calldata` work on. -/
structure ProofPoints where
  a : G1Affine
  b : G2Affine
  c : G1Affine
deriving DecidableEq

/-- `proof.rs`: `ProofJson`. -/
structure ProofJson where
  pi_a : List String
  pi_b : List (List String)
  pi_c : List String
  protocol : String
  curve : String
deriving DecidableEq

/-- `proof.rs`: `SolidityCalldata` (fixed-size arrays as lists). -/
structure SolidityCalldata where
  a : List String
  b : List (List String)
  c : List String
  inputs : List String
deriving DecidableEq

/-- `Display` of an `ark_bn254::Fr`: decimal of the canonical value. -/
def frToString (f : Fr) : String := Nat.repr f.val

namespace Proof

/-- `Proof::g1_to_strings`. -/
def g1_to_strings (point : G1Affine) : List String :=
  [Nat.repr point.x, Nat.repr point.y, "1"]

/-- `Proof::g2_to_strings`. -/
def g2_to_strings (point : G2Affine) : List (List String) :=
  [ [Nat.repr point.xc0, Nat.repr point.xc1],
    [Nat.repr point.yc0, Nat.repr point.yc1],
    ["1", "0"] ]

/-- `Proof::g1_to_uint256`. -/
def g1_to_uint256 (point : G1Affine) : List String :=
  [Nat.repr point.x, Nat.repr point.y]

/-- `Proof::g2_to_uint256` — note the reversed component order (`c1` before
`c0`). -/
def g2_to_uint256 (point : G2Affine) : List (List String) :=
  [ [Nat.repr point.xc1, Nat.repr point.xc0],
    [Nat.repr point.yc1, Nat.repr point.yc0] ]

/-- `Proof::to_json` (the uncompressed serializations of `a`, `b`, `c` that
the source also computes are unused; always `Ok`). -/
def to_json (self : ProofPoints) : ProofJson :=
  { pi_a := g1_to_strings self.a,
    pi_b := g2_to_strings self.b,
    pi_c := g1_to_strings self.c,
    protocol := "groth16",
    curve := "bn128" }

/-- `Proof::to_solidity_calldata` (always `Ok`). -/
def to_solidity_calldata (self : ProofPoints) (public_inputs : List Fr) :
    SolidityCalldata :=
  { a := g1_to_uint256 self.a,
    b := g2_to_uint256 self.b,
    c := g1_to_uint256 self.c,
    inputs := public_inputs.map frToString }

end Proof

/-! ## `verifier.rs`: the verifier -/

/-- `verifier.rs`: the snarkjs `VerificationKeyJson` schema. -/
structure VerificationKeyJson where
  protocol : String
  curve : String
  n_public : Nat
  vk_alpha_1 : List String
  vk_beta_2 : List (List String)
  vk_gamma_2 : List (List String)
  vk_delta_2 : List (List String)
  vk_alphabeta_12 : List (List (List String))
  ic : List (List String)

/-- `verifier.rs`: `ComplianceVerifier`. -/
structure ComplianceVerifier where
  build_dir : String
  threshold_vk : Option VerifyingKey
  range_vk : Option VerifyingKey
  tier_vk : Option VerifyingKey

/-- Outcomes of the verifier's external steps, passed in explicitly: the
verification-key file probe and contents per circuit, and the
`Groth16::verify` pairing check of the external backend. -/
structure VerifyEnv where
  vkeyFileExists : Circuit → Bool
  vkeyJson : Circuit → Except String VerificationKeyJson
  groth16Verify : VerifyingKey → List Fr → Proof → Except String Bool

namespace ComplianceVerifier

/-- `ComplianceVerifier::parse_verification_key` — unconditionally a
`SetupError` in the source. -/
def parse_verification_key (data : VerificationKeyJson) :
    Except ProverError VerifyingKey :=
  .error (.SetupError
    ("VKey parsing not fully implemented - protocol: " ++ data.protocol ++
      ", curve: " ++ data.curve))

/-- `ComplianceVerifier::load_verification_key`. -/
def load_verification_key (env : VerifyEnv) (self : ComplianceVerifier)
    (circuit : Circuit) : Except ProverError VerifyingKey :=
  let vkey_path :=
    self.build_dir ++ "/" ++ circuit.file_name ++ "/verification_key.json"
  if !env.vkeyFileExists circuit then .error (.CircuitNotFound vkey_path)
  else
    match env.vkeyJson circuit with
    | .error e => .error (.Serialization e)
    | .ok data => parse_verification_key data

/-- `ComplianceVerifier::verify_proof`. -/
def verify_proof (env : VerifyEnv) (self : ComplianceVerifier)
    (circuit : Circuit) (proof : ProofWithPublicInputs) :
    Except ProverError Bool :=
  match load_verification_key env self circuit with
  | .error e => .error e
  | .ok vk =>
    match env.groth16Verify vk proof.public_inputs proof.proof with
    | .error e => .error (.VerificationFailed e)
    | .ok is_valid => .ok is_valid

/-- `ComplianceVerifier::verify_threshold`. -/
def verify_threshold (env : VerifyEnv) (self : ComplianceVerifier)
    (proof : ProofWithPublicInputs) : Except ProverError Bool :=
  if proof.circuit ≠ Circuit.Threshold.file_name then
    .error (.InvalidProofFormat
      ("Expected threshold proof, got " ++ proof.circuit))
  else verify_proof env self Circuit.Threshold proof

/-- `ComplianceVerifier::verify_range`. -/
def verify_range (env : VerifyEnv) (self : ComplianceVerifier)
    (proof : ProofWithPublicInputs) : Except ProverError Bool :=
  if proof.circuit ≠ Circuit.Range.file_name then
    .error (.InvalidProofFormat ("Expected range proof, got " ++ proof.circuit))
  else verify_proof env self Circuit.Range proof

/-- `ComplianceVerifier::verify_tier`. -/
def verify_tier (env : VerifyEnv) (self : ComplianceVerifier)
    (proof : ProofWithPublicInputs) : Except ProverError Bool :=
  if proof.circuit ≠ Circuit.Tier.file_name then
    .error (.InvalidProofFormat ("Expected tier proof, got " ++ proof.circuit))
  else verify_proof env self Circuit.Tier proof

end ComplianceVerifier

/-! ## Codec helper lemmas -/

theorem natToLE_length (k v : Nat) : (natToLE k v).length = k := by
  induction k generalizing v with
  | zero => rfl
  | succ k ih => simp [natToLE, ih]

theorem leToNat_natToLE (k v : Nat) (h : v < 256 ^ k) :
    leToNat (natToLE k v) = v := by
  induction k generalizing v with
  | zero =>
    simp [natToLE, leToNat]
    omega
  | succ k ih =>
    have hdiv : v / 256 < 256 ^ k := by
      rw [Nat.div_lt_iff_lt_mul (by norm_num : (0:Nat) < 256)]
      calc v < 256 ^ (k + 1) := h
        _ = 256 ^ k * 256 := by ring
    simp only [natToLE, leToNat, ih (v / 256) hdiv]
    exact Nat.mod_add_div v 256

theorem natToLE_bytes_lt (k v : Nat) : ∀ b ∈ natToLE k v, b < 256 := by
  induction k generalizing v with
  | zero => intro b hb; simp [natToLE] at hb
  | succ k ih =>
    intro b hb
    simp only [natToLE, List.mem_cons] at hb
    rcases hb with h | h
    · omega
    · exact ih (v / 256) b h

theorem take_length_append (l1 l2 : List Nat) (n : Nat) (h : l1.length = n) :
    (l1 ++ l2).take n = l1 := by
  subst h; simp

theorem drop_length_append (l1 l2 : List Nat) (n : Nat) (h : l1.length = n) :
    (l1 ++ l2).drop n = l2 := by
  subst h; simp

theorem serializeG1_length (p : G1Comp) : (serializeG1 p).length = 32 := by
  simp [serializeG1, natToLE_length]

theorem serializeG2_length (p : G2Comp) : (serializeG2 p).length = 64 := by
  simp [serializeG2, natToLE_length]

theorem leToNat_pack (x f : Nat) (hx : x < 2 ^ 254) (hf : f < 3) :
    leToNat (natToLE 32 (x + 2 ^ 254 * f)) = x + 2 ^ 254 * f := by
  apply leToNat_natToLE
  have h1 : (256 : Nat) ^ 32 = 2 ^ 256 := by norm_num
  rw [h1]
  have h2 : (2 : Nat) ^ 256 = 2 ^ 254 * 4 := by norm_num
  rw [h2]
  nlinarith

theorem pack_div (x f : Nat) (hx : x < 2 ^ 254) :
    (x + 2 ^ 254 * f) / 2 ^ 254 = f := by
  rw [Nat.add_mul_div_left _ _ (by positivity), Nat.div_eq_of_lt hx, Nat.zero_add]

theorem pack_mod (x f : Nat) (hx : x < 2 ^ 254) :
    (x + 2 ^ 254 * f) % 2 ^ 254 = x := by
  rw [Nat.add_mul_mod_self_left, Nat.mod_eq_of_lt hx]

theorem q_lt_pow254 : bn254BaseModulus < 2 ^ 254 := by
  unfold bn254BaseModulus; norm_num

theorem deserializeG1_serializeG1 (p : G1Comp) (h : p.valid) :
    deserializeG1 (serializeG1 p) = .ok p := by
  obtain ⟨hf, hx, hinf⟩ := h
  have hx254 : p.x < 2 ^ 254 := lt_trans hx q_lt_pow254
  have h1 : ¬ (2 < p.flags) := by omega
  have h2 : ¬ (p.flags = 2 ∧ p.x ≠ 0) := fun hh => hh.2 (hinf hh.1)
  have h3 : ¬ (bn254BaseModulus ≤ p.x) := by omega
  simp only [deserializeG1, serializeG1,
    leToNat_pack p.x p.flags hx254 hf, pack_div p.x p.flags hx254,
    pack_mod p.x p.flags hx254]
  rw [if_neg h1, if_neg h2, if_neg h3]

theorem deserializeG2_serializeG2 (p : G2Comp) (h : p.valid) :
    deserializeG2 (serializeG2 p) = .ok p := by
  obtain ⟨hf, hc0, hc1, hinf⟩ := h
  have hc0' : p.c0 < 2 ^ 254 := lt_trans hc0 q_lt_pow254
  have hc1' : p.c1 < 2 ^ 254 := lt_trans hc1 q_lt_pow254
  have htake : (serializeG2 p).take 32 = natToLE 32 p.c0 :=
    take_length_append _ _ _ (natToLE_length 32 p.c0)
  have hdrop : (serializeG2 p).drop 32 =
      natToLE 32 (p.c1 + 2 ^ 254 * p.flags) :=
    drop_length_append _ _ _ (natToLE_length 32 p.c0)
  have hc0pack : leToNat (natToLE 32 p.c0) = p.c0 := by
    have := leToNat_pack p.c0 0 hc0' (by norm_num)
    simpa using this
  have h1 : ¬ (2 < p.flags) := by omega
  have h2 : ¬ (p.flags = 2 ∧ ¬(p.c0 = 0 ∧ p.c1 = 0)) :=
    fun hh => hh.2 (hinf hh.1)
  have h3 : ¬ (bn254BaseModulus ≤ p.c0 ∨ bn254BaseModulus ≤ p.c1) := by omega
  simp only [deserializeG2, htake, hdrop, hc0pack,
    leToNat_pack p.c1 p.flags hc1' hf, pack_div p.c1 p.flags hc1',
    pack_mod p.c1 p.flags hc1']
  rw [if_neg h1, if_neg h2, if_neg h3]

theorem serializeProof_length (p : Proof) : (serializeProof p).length = 128 := by
  simp [serializeProof, serializeG1_length, serializeG2_length]

theorem serializeProof_slices (p : Proof) :
    (serializeProof p).take 32 = serializeG1 p.a ∧
    ((serializeProof p).drop 32).take 64 = serializeG2 p.b ∧
    ((serializeProof p).drop 96).take 32 = serializeG1 p.c := by
  have hA := serializeG1_length p.a
  have hB := serializeG2_length p.b
  have hC := serializeG1_length p.c
  unfold serializeProof
  refine ⟨?_, ?_, ?_⟩
  · rw [List.append_assoc, take_length_append _ _ _ hA]
  · rw [List.append_assoc, drop_length_append _ _ _ hA,
      take_length_append _ _ _ hB]
  · rw [drop_length_append _ _ _ (by simp [hA, hB]),
      List.take_of_length_le (by omega)]

theorem deserializeProof_serializeProof (p : Proof) (h : p.valid) :
    deserializeProof (serializeProof p) = .ok p := by
  obtain ⟨ha, hb, hc⟩ := h
  obtain ⟨hsA, hsB, hsC⟩ := serializeProof_slices p
  have hlen : ¬ ((serializeProof p).length < 128) := by
    rw [serializeProof_length]; omega
  simp only [deserializeProof]
  rw [if_neg hlen, hsA, hsB, hsC,
    deserializeG1_serializeG1 p.a ha, deserializeG2_serializeG2 p.b hb,
    deserializeG1_serializeG1 p.c hc]

theorem hexVal_hexDigit : ∀ n < 16, hexVal (hexDigit n) = some n := by decide

theorem isLowerHexChar_hexDigit : ∀ n < 16, isLowerHexChar (hexDigit n) = true := by
  decide

theorem hexDecode_hexEncode (bs : List Nat) (h : ∀ b ∈ bs, b < 256) :
    hexDecode (hexEncode bs) = some bs := by
  induction bs with
  | nil => rfl
  | cons b bs ih =>
    have hb : b < 256 := h b (List.mem_cons_self b bs)
    have hdiv : b / 16 < 16 := by omega
    have hmod : b % 16 < 16 := by omega
    have hrest : hexDecode (hexEncode bs) = some bs :=
      ih fun x hx => h x (List.mem_cons_of_mem b hx)
    simp only [hexEncode, hexDecode, hexVal_hexDigit _ hdiv,
      hexVal_hexDigit _ hmod, hrest]
    have : b / 16 * 16 + b % 16 = b := by omega
    rw [this]

theorem hexEncode_lower (bs : List Nat) (h : ∀ b ∈ bs, b < 256) :
    ∀ c ∈ hexEncode bs, isLowerHexChar c = true := by
  induction bs with
  | nil => intro c hc; simp [hexEncode] at hc
  | cons b bs ih =>
    intro c hc
    have hb : b < 256 := h b (List.mem_cons_self b bs)
    simp only [hexEncode, List.mem_cons] at hc
    rcases hc with rfl | hc
    · exact isLowerHexChar_hexDigit _ (by omega)
    rcases hc with rfl | hc
    · exact isLowerHexChar_hexDigit _ (by omega)
    · exact ih (fun x hx => h x (List.mem_cons_of_mem b hx)) c hc

theorem serializeProof_bytes_lt (p : Proof) :
    ∀ b ∈ serializeProof p, b < 256 := by
  intro b hb
  simp only [serializeProof, serializeG1, serializeG2, List.mem_append] at hb
  rcases hb with (h | h | h) | h
  all_goals exact natToLE_bytes_lt _ _ b h

theorem natToLE_leToNat (bs : List Nat) (hb : ∀ b ∈ bs, b < 256) :
    natToLE bs.length (leToNat bs) = bs := by
  induction bs with
  | nil => rfl
  | cons b rest ih =>
    have hb0 : b < 256 := hb b (List.mem_cons_self b rest)
    have hrest : ∀ x ∈ rest, x < 256 :=
      fun x hx => hb x (List.mem_cons_of_mem b hx)
    have hm : (b + 256 * leToNat rest) % 256 = b := by
      rw [Nat.add_mul_mod_self_left]
      exact Nat.mod_eq_of_lt hb0
    have hd : (b + 256 * leToNat rest) / 256 = leToNat rest := by
      rw [Nat.add_mul_div_left _ _ (by norm_num : (0:Nat) < 256),
        Nat.div_eq_of_lt hb0, Nat.zero_add]
    simp only [List.length_cons, natToLE, leToNat, hm, hd, ih hrest]

theorem deserializeG1_ok (bs : List Nat) (p : G1Comp) (hlen : bs.length = 32)
    (hb : ∀ b ∈ bs, b < 256) (h : deserializeG1 bs = .ok p) :
    p.valid ∧ serializeG1 p = bs := by
  simp only [deserializeG1] at h
  split_ifs at h with h1 h2 h3
  injection h with h4
  subst h4
  refine ⟨⟨Nat.lt_succ_of_le (Nat.not_lt.mp h1), Nat.not_le.mp h3,
    fun hf2 => of_not_not fun hx => h2 ⟨hf2, hx⟩⟩, ?_⟩
  show natToLE 32 (leToNat bs % 2 ^ 254 +
    2 ^ 254 * (leToNat bs / 2 ^ 254)) = bs
  rw [Nat.mod_add_div, ← hlen, natToLE_leToNat bs hb]

theorem deserializeG2_ok (bs : List Nat) (p : G2Comp) (hlen : bs.length = 64)
    (hb : ∀ b ∈ bs, b < 256) (h : deserializeG2 bs = .ok p) :
    p.valid ∧ serializeG2 p = bs := by
  simp only [deserializeG2] at h
  split_ifs at h with h1 h2 h3
  injection h with h4
  subst h4
  have ht32 : (bs.take 32).length = 32 := by
    rw [List.length_take, hlen]; omega
  have hd32 : (bs.drop 32).length = 32 := by
    rw [List.length_drop, hlen]
  have htb : ∀ x ∈ bs.take 32, x < 256 :=
    fun x hx => hb x (List.take_subset _ _ hx)
  have hdb : ∀ x ∈ bs.drop 32, x < 256 :=
    fun x hx => hb x (List.drop_subset _ _ hx)
  have e1 : natToLE 32 (leToNat (bs.take 32)) = bs.take 32 := by
    have he := natToLE_leToNat (bs.take 32) htb
    rwa [ht32] at he
  have e2 : natToLE 32 (leToNat (bs.drop 32)) = bs.drop 32 := by
    have he := natToLE_leToNat (bs.drop 32) hdb
    rwa [hd32] at he
  refine ⟨⟨Nat.lt_succ_of_le (Nat.not_lt.mp h1),
    Nat.not_le.mp fun hh => h3 (Or.inl hh),
    Nat.not_le.mp fun hh => h3 (Or.inr hh),
    fun hf2 => of_not_not fun hcc => h2 ⟨hf2, hcc⟩⟩, ?_⟩
  show natToLE 32 (leToNat (bs.take 32)) ++
    natToLE 32 (leToNat (bs.drop 32) % 2 ^ 254 +
      2 ^ 254 * (leToNat (bs.drop 32) / 2 ^ 254)) = bs
  rw [Nat.mod_add_div, e1, e2, List.take_append_drop]

theorem deserializeProof_ok (bs : List Nat) (p : Proof)
    (hb : ∀ b ∈ bs, b < 256) (h : deserializeProof bs = .ok p) :
    p.valid ∧ serializeProof p = bs.take 128 := by
  unfold deserializeProof at h
  by_cases hlen : bs.length < 128
  · rw [if_pos hlen] at h; exact absurd h (by simp)
  rw [if_neg hlen] at h
  push_neg at hlen
  cases hA : deserializeG1 (bs.take 32) with
  | error e => rw [hA] at h; exact absurd h (by simp)
  | ok a =>
  rw [hA] at h
  cases hB : deserializeG2 ((bs.drop 32).take 64) with
  | error e => rw [hB] at h; exact absurd h (by simp)
  | ok b =>
  rw [hB] at h
  cases hC : deserializeG1 ((bs.drop 96).take 32) with
  | error e => rw [hC] at h; exact absurd h (by simp)
  | ok c =>
  rw [hC] at h
  injection h with h4
  subst h4
  have l1 : (bs.take 32).length = 32 := by
    rw [List.length_take]; omega
  have l2 : ((bs.drop 32).take 64).length = 64 := by
    rw [List.length_take, List.length_drop]; omega
  have l3 : ((bs.drop 96).take 32).length = 32 := by
    rw [List.length_take, List.length_drop]; omega
  have m1 : ∀ x ∈ bs.take 32, x < 256 :=
    fun x hx => hb x (List.take_subset _ _ hx)
  have m2 : ∀ x ∈ (bs.drop 32).take 64, x < 256 :=
    fun x hx => hb x (List.drop_subset _ _ (List.take_subset _ _ hx))
  have m3 : ∀ x ∈ (bs.drop 96).take 32, x < 256 :=
    fun x hx => hb x (List.drop_subset _ _ (List.take_subset _ _ hx))
  obtain ⟨hva, hsa⟩ := deserializeG1_ok _ a l1 m1 hA
  obtain ⟨hvb, hsb⟩ := deserializeG2_ok _ b l2 m2 hB
  obtain ⟨hvc, hsc⟩ := deserializeG1_ok _ c l3 m3 hC
  refine ⟨⟨hva, hvb, hvc⟩, ?_⟩
  show serializeG1 a ++ serializeG2 b ++ serializeG1 c = bs.take 128
  rw [hsa, hsb, hsc, List.append_assoc,
    show (128 : Nat) = 32 + 96 by norm_num, List.take_add]
  congr 1
  rw [show (96 : Nat) = 64 + 32 by norm_num, List.take_add]
  congr 1
  rw [List.drop_drop]

/-! ## Shared concrete fixtures -/

/-- A concrete compressed proof (used as an opaque payload). -/
def sampleProof : Proof := ⟨⟨1, 0⟩, ⟨1, 1, 0⟩, ⟨1, 0⟩⟩

/-- A canonical (valid) sample proof. -/
def sampleValidProof : Proof := ⟨⟨1, 0⟩, ⟨2, 3, 1⟩, ⟨4, 1⟩⟩

/-- A `ProveEnv` in which every external step succeeds. -/
def allOkEnv : ProveEnv := ⟨true, .ok (), .ok (), .ok (), .ok sampleProof, some []⟩

/-- The valid threshold input of the spec's end-to-end scenario A. -/
def scenarioAInput : ThresholdInput := ⟨8000, "123456789", 8500, "987654321"⟩

/-- A fresh prover as `ComplianceProver::new` constructs it. -/
def freshProver : ComplianceProver := ⟨"./build", none, none, none⟩

/-- Characterization of `TierInput::validate` success. -/
theorem tierValidate_ok_iff (i : TierInput) :
    i.validate = .ok () ↔
      (1 ≤ i.target_tier ∧ i.target_tier ≤ 5 ∧ i.score ≤ 10000 ∧
        (TierInput.tier_bounds i.target_tier).1 ≤ i.score ∧
        i.score ≤ (TierInput.tier_bounds i.target_tier).2) := by
  simp only [TierInput.validate, MAX_SCORE]
  split_ifs with h1 h2 h3 <;> simp <;> omega

/-! ## Claim theorems -/

/-- C5: `ThresholdInput::validate` checks, in order, `score > 10000`
(`ScoreOutOfRange`), then `threshold > 10000` (`InvalidInput` on field
`threshold`), then `score < threshold` (`ThresholdNotMet`), returning the
first failing kind; and it returns `Ok(())` exactly on every input with
`threshold ≤ score ≤ 10000`. -/
theorem C5_threshold_validate_order (threshold score : Nat)
    (entity_hash salt : String) :
    (ThresholdInput.validate ⟨threshold, entity_hash, score, salt⟩ =
      if 10000 < score then .error (.ScoreOutOfRange score)
      else if 10000 < threshold then
        .error (.InvalidInput "threshold" (Nat.repr threshold) "0-10000")
      else if score < threshold then
        .error (.ThresholdNotMet score threshold)
      else .ok ()) ∧
    (threshold ≤ score → score ≤ 10000 →
      ThresholdInput.validate ⟨threshold, entity_hash, score, salt⟩ =
        .ok ()) := by
  constructor
  · rfl
  · intro h1 h2
    simp only [ThresholdInput.validate, MAX_SCORE]
    split_ifs with ha hb hc <;> first | rfl | omega

/-- Witness for C5 at the spec's scenario-A input. -/
theorem C5_witness :
    8000 ≤ 8500 ∧ 8500 ≤ 10000 ∧
      ThresholdInput.validate ⟨8000, "123456789", 8500, "987654321"⟩ =
        .ok () :=
  ⟨by decide, by decide,
    (C5_threshold_validate_order 8000 8500 "123456789" "987654321").2
      (by decide) (by decide)⟩

/-- C6: `TierInput::tier_bounds` returns exactly the fixed tier table, and a
score inside tier `t`'s closed interval validates against `target_tier = t`
and fails validation against every other tier in `1..=5`. -/
theorem C6_tier_bounds_and_membership :
    (TierInput.tier_bounds 1 = (9500, 10000) ∧
      TierInput.tier_bounds 2 = (8500, 9499) ∧
      TierInput.tier_bounds 3 = (7000, 8499) ∧
      TierInput.tier_bounds 4 = (5000, 6999) ∧
      TierInput.tier_bounds 5 = (0, 4999)) ∧
    ∀ (t t' score : Nat) (entity_hash salt : String),
      1 ≤ t → t ≤ 5 → 1 ≤ t' → t' ≤ 5 → t' ≠ t →
      (TierInput.tier_bounds t).1 ≤ score →
      score ≤ (TierInput.tier_bounds t).2 →
      (TierInput.validate ⟨t, entity_hash, score, salt⟩ = .ok () ∧
        TierInput.validate ⟨t', entity_hash, score, salt⟩ ≠ .ok ()) := by
  refine ⟨⟨rfl, rfl, rfl, rfl, rfl⟩, ?_⟩
  intro t t' score entity_hash salt h1 h2 h3 h4 hne hmin hmax
  simp only [Ne, tierValidate_ok_iff]
  interval_cases t <;> interval_cases t' <;>
    simp_all [TierInput.tier_bounds, tiers.TIER_1_MIN, tiers.TIER_2_MIN,
      tiers.TIER_3_MIN, tiers.TIER_4_MIN, tiers.TIER_5_MIN, MAX_SCORE] <;>
    omega

/-- Witness for C6: score 7999 belongs to tier 3 and validates there, but not
against tier 4 (the spec's scenario-C flavor). -/
theorem C6_witness :
    (TierInput.tier_bounds 3).1 ≤ 7999 ∧
      7999 ≤ (TierInput.tier_bounds 3).2 ∧
      TierInput.validate ⟨3, "123456789", 7999, "987654321"⟩ = .ok () ∧
      TierInput.validate ⟨4, "123456789", 7999, "987654321"⟩ ≠ .ok () := by
  have h := C6_tier_bounds_and_membership.2 3 4 7999 "123456789" "987654321"
    (by decide) (by decide) (by decide) (by decide) (by decide)
    (by decide) (by decide)
  exact ⟨by decide, by decide, h.1, h.2⟩

/-- C7: in every `to_circuit_input`, the `entityHash` and `salt`
decimal-string fields are parsed with `BigUint::parse_bytes`; a string that
fails to parse is emitted as the big integer 0 (no error), while a string
that parses is emitted unchanged. -/
theorem C7_unparsable_strings_default_to_zero (t : ThresholdInput)
    (rg : RangeInput) (ti : TierInput) :
    (t.to_circuit_input =
      [("threshold", [t.threshold]),
        ("entityHash", [(parseBytes10 t.entity_hash).getD 0]),
        ("score", [t.score]),
        ("salt", [(parseBytes10 t.salt).getD 0])]) ∧
    (rg.to_circuit_input =
      [("minScore", [rg.min_score]), ("maxScore", [rg.max_score]),
        ("entityHash", [(parseBytes10 rg.entity_hash).getD 0]),
        ("score", [rg.score]),
        ("salt", [(parseBytes10 rg.salt).getD 0])]) ∧
    (ti.to_circuit_input =
      [("targetTier", [ti.target_tier]),
        ("entityHash", [(parseBytes10 ti.entity_hash).getD 0]),
        ("score", [ti.score]),
        ("salt", [(parseBytes10 ti.salt).getD 0])]) ∧
    (∀ s : String, parseBytes10 s = none → (parseBytes10 s).getD 0 = 0) ∧
    (∀ (s : String) (n : Nat), parseBytes10 s = some n →
      (parseBytes10 s).getD 0 = n) := by
  refine ⟨rfl, rfl, rfl, ?_, ?_⟩
  · intro s h; rw [h]; rfl
  · intro s n h; rw [h]; rfl

/-- Witness for C7: `"xyz"` fails to parse and is emitted as 0, `"123"`
parses and is emitted unchanged. -/
theorem C7_witness :
    parseBytes10 "xyz" = none ∧ (parseBytes10 "xyz").getD 0 = 0 ∧
      parseBytes10 "123" = some 123 ∧ (parseBytes10 "123").getD 0 = 123 ∧
      ThresholdInput.to_circuit_input ⟨8000, "xyz", 8500, "123"⟩ =
        [("threshold", [8000]), ("entityHash", [0]), ("score", [8500]),
          ("salt", [123])] := by
  have h := C7_unparsable_strings_default_to_zero ⟨8000, "xyz", 8500, "123"⟩
    ⟨0, 0, "", 0, ""⟩ ⟨1, "", 9500, ""⟩
  refine ⟨by decide, h.2.2.2.1 "xyz" (by decide), by decide,
    h.2.2.2.2 "123" 123 (by decide), ?_⟩
  rw [h.1]; decide

/-- C10: `string_to_fr` reduces every parsed unsigned decimal integer modulo
the BN254 scalar prime (so values `≥ p` are silently reduced and two decimal
strings congruent mod `p` map to the same field element), and returns an
`ArkError` on strings that do not parse. -/
theorem C10_string_to_fr_mod_p (s : String) :
    (∀ n : Nat, fromStrRadix10 s.data = .ok n →
      string_to_fr s = .ok (n : Fr) ∧
        ((n : Fr)).val = n % bn254ScalarModulus) ∧
    (∀ (t : String) (n m : Nat), fromStrRadix10 s.data = .ok n →
      fromStrRadix10 t.data = .ok m →
      n % bn254ScalarModulus = m % bn254ScalarModulus →
      string_to_fr s = string_to_fr t) ∧
    (∀ e, fromStrRadix10 s.data = .error e →
      string_to_fr s =
        .error (.ArkError ("Invalid number: " ++ parseBigIntErrorMessage e))) := by
  refine ⟨?_, ?_, ?_⟩
  · intro n h
    unfold string_to_fr
    rw [h]
    exact ⟨rfl, ZMod.val_natCast n⟩
  · intro t n m hs ht hmod
    have : (n : Fr) = (m : Fr) := by
      rw [← ZMod.natCast_mod n bn254ScalarModulus,
        ← ZMod.natCast_mod m bn254ScalarModulus, hmod]
    simp only [string_to_fr, hs, ht, this]
  · intro e h
    unfold string_to_fr
    rw [h]

/-- Decimal rendering of `p + 1` for the BN254 scalar prime `p`. -/
def scalarModulusPlusOneStr : String :=
  "21888242871839275222246405745257275088548364400416034343698204186575808495618"

/-- Witness for C10: `"1"` and the decimal string of `p + 1` map to the same
field element; `"xyz"` yields an `ArkError`. -/
theorem C10_witness :
    fromStrRadix10 ("1" : String).data = .ok 1 ∧
      string_to_fr "1" = .ok ((1 : Nat) : Fr) ∧
      ((1 : Nat) : Fr).val = 1 % bn254ScalarModulus ∧
      fromStrRadix10 scalarModulusPlusOneStr.data =
        .ok (bn254ScalarModulus + 1) ∧
      1 % bn254ScalarModulus =
        (bn254ScalarModulus + 1) % bn254ScalarModulus ∧
      string_to_fr "1" = string_to_fr scalarModulusPlusOneStr ∧
      fromStrRadix10 ("xyz" : String).data = .error .invalid ∧
      string_to_fr "xyz" =
        .error (.ArkError "Invalid number: invalid digit found in string") := by
  have h1 : fromStrRadix10 ("1" : String).data = .ok 1 := by decide
  have h2 : fromStrRadix10 scalarModulusPlusOneStr.data =
      .ok (bn254ScalarModulus + 1) := by decide
  have h5 : 1 % bn254ScalarModulus =
      (bn254ScalarModulus + 1) % bn254ScalarModulus :=
    (Nat.add_mod_left bn254ScalarModulus 1).symm
  have hx : fromStrRadix10 ("xyz" : String).data = .error .invalid := by decide
  refine ⟨h1, ((C10_string_to_fr_mod_p "1").1 1 h1).1,
    ((C10_string_to_fr_mod_p "1").1 1 h1).2, h2, h5,
    (C10_string_to_fr_mod_p "1").2.1 scalarModulusPlusOneStr 1
      (bn254ScalarModulus + 1) h1 h2 h5, hx,
    (C10_string_to_fr_mod_p "xyz").2.2 .invalid hx⟩

/-- C1: contrary to the claim, `ThresholdCircuit::generate_constraints`
emits **no** constraints at all (the range-proof and commitment constraints
are commented out): the resulting system has an empty constraint list, is
trivially satisfied for *every* witness — including `score = threshold − 1`
(7999 against threshold 8000) — and exposes only `threshold` and
`entity_hash` as public inputs, no commitment output. -/
theorem C1_threshold_circuit_emits_no_constraints (c : ThresholdCircuit) :
    (c.generate_constraints R1CSState.init).constraints = [] ∧
    R1CSState.isSatisfied (c.generate_constraints R1CSState.init) = true ∧
    (c.generate_constraints R1CSState.init).instAssign =
      [1, c.threshold, c.entity_hash] ∧
    (c.generate_constraints R1CSState.init).witAssign = [c.score, c.salt] ∧
    R1CSState.isSatisfied
      ((ThresholdCircuit.new 8000 123456789 7999
        987654321).generate_constraints R1CSState.init) = true :=
  ⟨rfl, rfl, rfl, rfl, rfl⟩

/-- C2: contrary to the claim, the proving-key cache is never populated:
`prove_threshold` leaves the prover state (including `threshold_pk`)
unchanged on every call, and two successive successful calls each run
`Groth16::circuit_specific_setup` once (two setups total, none cached). -/
theorem C2_proving_key_never_cached :
    (∀ (env : ProveEnv) (self : ComplianceProver) (input : ThresholdInput),
      (ComplianceProver.prove_threshold env self input).2.1 = self) ∧
    (ComplianceProver.prove_threshold allOkEnv freshProver
      scenarioAInput).2.2 = 1 ∧
    (ComplianceProver.prove_threshold allOkEnv
      (ComplianceProver.prove_threshold allOkEnv freshProver
        scenarioAInput).2.1 scenarioAInput).2.2 = 1 ∧
    (ComplianceProver.prove_threshold allOkEnv
      (ComplianceProver.prove_threshold allOkEnv freshProver
        scenarioAInput).2.1 scenarioAInput).2.1.threshold_pk = none := by
  refine ⟨?_, rfl, rfl, rfl⟩
  intro env self input
  obtain ⟨we, cr, br, sr, pr, pis⟩ := env
  unfold ComplianceProver.prove_threshold ComplianceProver.build_and_prove
  cases input.validate <;> cases we <;> cases cr <;> cases br <;> cases sr <;>
    cases pr <;> cases pis <;> rfl

/-- Classifier: is the result an `InvalidProofFormat` error? -/
def errKindIsInvalidProofFormat : Except ProverError Proof → Bool
  | .error (.InvalidProofFormat _) => true
  | _ => false

/-- Classifier: is the result an `ArkError`? -/
def errKindIsArkError : Except ProverError Proof → Bool
  | .error (.ArkError _) => true
  | _ => false

/-- C3 counterexample: on the truncated (empty) byte sequence,
`Proof::from_bytes` fails with `ArkError` — not `InvalidProofFormat` as the
claim states. -/
theorem C3_counterexample :
    errKindIsInvalidProofFormat (Proof.from_bytes []) = false ∧
    errKindIsArkError (Proof.from_bytes []) = true ∧
    Proof.from_bytes [] =
      .error (.ArkError (serializationErrorMessage .ioError)) :=
  ⟨rfl, rfl, rfl⟩

/-- C3 (amended): for every byte sequence (entries are `u8` values, hence
below 256) whose first 128 bytes are not the canonical compressed
serialization of a proof — truncated or malformed input — `Proof::from_bytes`
returns an error of kind `ArkError` (the `From<SerializationError>` mapping
of `error.rs`), never a proof and never `InvalidProofFormat`; and whenever it
does return a proof, the first 128 bytes of the input are exactly that
proof's canonical serialization (trailing bytes are ignored by the reader). -/
theorem C3_from_bytes_error_kind (bytes : List Nat) :
    (∀ e, Proof.from_bytes bytes = .error e →
      ∃ msg, e = ProverError.ArkError msg) ∧
    (bytes.length < 128 →
      errKindIsArkError (Proof.from_bytes bytes) = true) ∧
    ((∀ b ∈ bytes, b < 256) → ∀ p, Proof.from_bytes bytes = .ok p →
      p.valid ∧ Proof.to_bytes p = bytes.take 128) ∧
    ((∀ b ∈ bytes, b < 256) →
      (∀ p : Proof, p.valid → bytes.take 128 ≠ Proof.to_bytes p) →
      errKindIsArkError (Proof.from_bytes bytes) = true) := by
  have hErr : ∀ e, Proof.from_bytes bytes = .error e →
      ∃ msg, e = ProverError.ArkError msg := by
    intro e he
    unfold Proof.from_bytes at he
    cases hd : deserializeProof bytes with
    | ok p => rw [hd] at he; cases he
    | error se =>
      rw [hd] at he
      injection he with h
      exact ⟨serializationErrorMessage se, h.symm⟩
  have hOk : (∀ b ∈ bytes, b < 256) → ∀ p, Proof.from_bytes bytes = .ok p →
      p.valid ∧ Proof.to_bytes p = bytes.take 128 := by
    intro hb p hp
    unfold Proof.from_bytes at hp
    cases hd : deserializeProof bytes with
    | error se => rw [hd] at hp; cases hp
    | ok p0 =>
      rw [hd] at hp
      injection hp with h
      subst h
      exact deserializeProof_ok bytes p0 hb hd
  refine ⟨hErr, ?_, hOk, ?_⟩
  · intro hlen
    unfold errKindIsArkError Proof.from_bytes deserializeProof
    rw [if_pos hlen]
    rfl
  · intro hb hnot
    cases hres : Proof.from_bytes bytes with
    | ok p =>
      obtain ⟨hv, hser⟩ := hOk hb p hres
      exact absurd hser.symm (hnot p hv)
    | error e =>
      obtain ⟨msg, hmsg⟩ := hErr e hres
      subst hmsg
      rfl

/-- Witness for C3: the empty (truncated) sequence and the one-byte sequence
`[0]` (whose 128-byte prefix is the serialization of no proof) are rejected
with `ArkError`; the canonical serialization of a concrete proof is accepted
and equals the accepted input's 128-byte prefix. -/
theorem C3_witness :
    Proof.from_bytes [] =
      .error (ProverError.fromSerializationError .ioError) ∧
    (∃ msg, ProverError.fromSerializationError .ioError =
      ProverError.ArkError msg) ∧
    ([] : List Nat).length < 128 ∧
    errKindIsArkError (Proof.from_bytes []) = true ∧
    errKindIsArkError (Proof.from_bytes [0]) = true ∧
    sampleValidProof.valid ∧
    Proof.from_bytes (Proof.to_bytes sampleValidProof) =
      .ok sampleValidProof ∧
    Proof.to_bytes sampleValidProof =
      (Proof.to_bytes sampleValidProof).take 128 := by
  have hv : sampleValidProof.valid := by
    constructor
    · exact ⟨by decide, by decide, by decide⟩
    constructor
    · exact ⟨by decide, by decide, by decide, by decide⟩
    · exact ⟨by decide, by decide, by decide⟩
  have hok : Proof.from_bytes (Proof.to_bytes sampleValidProof) =
      .ok sampleValidProof := by
    unfold Proof.from_bytes Proof.to_bytes
    rw [deserializeProof_serializeProof sampleValidProof hv]
  have hnot0 : ∀ p : Proof, p.valid →
      ([0] : List Nat).take 128 ≠ Proof.to_bytes p := by
    intro p _ heq
    have hl := congrArg List.length heq
    rw [show Proof.to_bytes p = serializeProof p from rfl,
      serializeProof_length] at hl
    simp at hl
  refine ⟨rfl, (C3_from_bytes_error_kind []).1 _ rfl, by decide,
    (C3_from_bytes_error_kind []).2.1 (by decide),
    (C3_from_bytes_error_kind [0]).2.2.2 (by decide) hnot0, hv, hok,
    ((C3_from_bytes_error_kind (Proof.to_bytes sampleValidProof)).2.2.1
      (serializeProof_bytes_lt sampleValidProof) sampleValidProof hok).2⟩

/-- C4: each of `verify_threshold`, `verify_range`, `verify_tier` rejects an
artifact whose circuit tag does not match the expected kind with an
`InvalidProofFormat` error, for *every* possible outcome of
verification-key loading and of the pairing check (i.e. before any such
work). -/
theorem C4_verify_kind_mismatch (env : VerifyEnv) (self : ComplianceVerifier)
    (proof : ProofWithPublicInputs) :
    (proof.circuit ≠ "compliance_threshold" →
      ComplianceVerifier.verify_threshold env self proof =
        .error (.InvalidProofFormat
          ("Expected threshold proof, got " ++ proof.circuit))) ∧
    (proof.circuit ≠ "range_proof" →
      ComplianceVerifier.verify_range env self proof =
        .error (.InvalidProofFormat
          ("Expected range proof, got " ++ proof.circuit))) ∧
    (proof.circuit ≠ "tier_membership" →
      ComplianceVerifier.verify_tier env self proof =
        .error (.InvalidProofFormat
          ("Expected tier proof, got " ++ proof.circuit))) := by
  refine ⟨?_, ?_, ?_⟩ <;> intro h
  · unfold ComplianceVerifier.verify_threshold Circuit.file_name
    rw [if_pos h]
  · unfold ComplianceVerifier.verify_range Circuit.file_name
    rw [if_pos h]
  · unfold ComplianceVerifier.verify_tier Circuit.file_name
    rw [if_pos h]

/-- A verifier environment with no key files present. -/
def noFileEnv : VerifyEnv :=
  ⟨fun _ => false, fun _ => .error "missing", fun _ _ _ => .ok true⟩

/-- A fresh verifier as `ComplianceVerifier::new` constructs it. -/
def sampleVerifier : ComplianceVerifier := ⟨"./build", none, none, none⟩

/-- An artifact tagged `compliance_threshold` (the spec's scenario B). -/
def thresholdTaggedArtifact : ProofWithPublicInputs :=
  ⟨sampleProof, [], "compliance_threshold"⟩

/-- Witness for C4: `verify_range` on a `compliance_threshold` artifact
errors with `InvalidProofFormat`. -/
theorem C4_witness :
    thresholdTaggedArtifact.circuit ≠ "range_proof" ∧
    ComplianceVerifier.verify_range noFileEnv sampleVerifier
      thresholdTaggedArtifact =
      .error (.InvalidProofFormat
        ("Expected range proof, got " ++ thresholdTaggedArtifact.circuit)) :=
  ⟨by decide,
    (C4_verify_kind_mismatch noFileEnv sampleVerifier
      thresholdTaggedArtifact).2.1 (by decide)⟩

/-- C8: for every canonical proof, the binary and hex serializations
round-trip exactly, and the hex form is the lowercase hex encoding of the
binary form. -/
theorem C8_serialization_roundtrip (p : Proof) (h : p.valid) :
    Proof.from_bytes (Proof.to_bytes p) = .ok p ∧
    Proof.from_hex (Proof.to_hex p) = .ok p ∧
    Proof.to_hex p = hexEncode (Proof.to_bytes p) ∧
    ∀ c ∈ Proof.to_hex p, isLowerHexChar c = true := by
  have hbytes := serializeProof_bytes_lt p
  have h1 : Proof.from_bytes (Proof.to_bytes p) = .ok p := by
    unfold Proof.from_bytes Proof.to_bytes
    rw [deserializeProof_serializeProof p h]
  refine ⟨h1, ?_, rfl, ?_⟩
  · unfold Proof.from_hex Proof.to_hex
    rw [hexDecode_hexEncode (Proof.to_bytes p) hbytes]
    exact h1
  · exact fun c hc => hexEncode_lower _ hbytes c hc

/-- Witness for C8 at a concrete canonical proof. -/
theorem C8_witness :
    sampleValidProof.valid ∧
    Proof.from_bytes (Proof.to_bytes sampleValidProof) =
      .ok sampleValidProof ∧
    Proof.from_hex (Proof.to_hex sampleValidProof) = .ok sampleValidProof := by
  have hv : sampleValidProof.valid := by
    constructor
    · exact ⟨by decide, by decide, by decide⟩
    constructor
    · exact ⟨by decide, by decide, by decide, by decide⟩
    · exact ⟨by decide, by decide, by decide⟩
  exact ⟨hv, (C8_serialization_roundtrip sampleValidProof hv).1,
    (C8_serialization_roundtrip sampleValidProof hv).2.1⟩

/-- C9: `to_solidity_calldata` renders the `b` point with the extension-field
components reversed (`c1` before `c0`) relative to `to_json`'s `pi_b`
(`c0` before `c1` plus the `["1","0"]` padding row), and renders the public
inputs as decimal strings in order. -/
theorem C9_calldata_b_components_reversed (p : ProofPoints)
    (public_inputs : List Fr) :
    (Proof.to_solidity_calldata p public_inputs).b =
      [[Nat.repr p.b.xc1, Nat.repr p.b.xc0],
        [Nat.repr p.b.yc1, Nat.repr p.b.yc0]] ∧
    (Proof.to_json p).pi_b =
      [[Nat.repr p.b.xc0, Nat.repr p.b.xc1],
        [Nat.repr p.b.yc0, Nat.repr p.b.yc1], ["1", "0"]] ∧
    (Proof.to_solidity_calldata p public_inputs).inputs =
      public_inputs.map frToString :=
  ⟨rfl, rfl, rfl⟩

example : parseBytes10 "123456789" = some 123456789 := by decide
example : parseBytes10 "xyz" = none := by decide
example : parseBytes10 "" = none := by decide
example : ThresholdInput.validate ⟨8000, "1", 8500, "2"⟩ = .ok () := by decide
example : ThresholdInput.validate ⟨8000, "1", 7500, "2"⟩ =
    .error (.ThresholdNotMet 7500 8000) := by decide
example : TierInput.tier_bounds 2 = (8500, 9499) := by decide
example : TierInput.validate ⟨3, "1", 6999, "2"⟩ =
    .error (.InvalidInput "score" "6999" "tier 3 range [7000, 8499]") := by
  decide
